import Mathlib

/-!
Shallow embedding of the StockFlow inventory application (TypeScript/Express/
Drizzle) and proofs about its request-approval and quantity-adjustment
workflow.

The data model follows `shared/schema.ts` (the variant with `password_hash`
and `isActive` on users).  The storage layer follows
`server/storage.ts` / `DatabaseStorage`; the HTTP handlers follow
`server/routes.ts`.  SQL tables become Lean lists, `update ... where id = x`
becomes a map over the list, `insert ... returning` appends a row, and the
drizzle behaviour of skipping `undefined` values in `.set()` is modelled by
merging `Option` parameters with the old field.  Timestamps (`new Date()`)
are passed in as an explicit `now : Nat`; generated UUID primary keys are
modelled by a deterministic fresh id derived from the table length.
-/

namespace StockFlow

/-- Row of the `users` table (schema.ts): id, nullable unique email,
`password_hash` (not null), name fields, `isAdmin` / `isActive` booleans that
default to false but are nullable columns, creation timestamp. -/
structure User where
  id : String
  email : Option String := none
  password_hash : String := ""
  firstName : Option String := none
  lastName : Option String := none
  isAdmin : Option Bool := some false
  isActive : Option Bool := some false
  createdAt : Nat := 0
deriving DecidableEq, Repr

/-- Row of the `stocks` table (schema.ts): unique code, name, description,
image url, integer quantity (default 0), category, timestamps. -/
structure Stock where
  id : String
  name : String := ""
  code : String := ""
  description : Option String := none
  imageUrl : Option String := none
  quantity : Int := 0
  category : Option String := none
  createdAt : Nat := 0
  updatedAt : Nat := 0
deriving DecidableEq, Repr

/-- Row of the `stock_requests` table (schema.ts): requester, stock,
requested quantity, reason, status (varchar, default "pending"), admin
notes, approver, timestamps. -/
structure StockRequest where
  id : String
  userId : String
  stockId : String
  quantity : Int
  reason : Option String := none
  status : String := "pending"
  adminNotes : Option String := none
  approvedBy : Option String := none
  createdAt : Nat := 0
  updatedAt : Nat := 0
deriving DecidableEq, Repr

/-- Row of the `stock_history` table (schema.ts): stock, change type
("added" | "removed" | "request_approved"), integer quantity, optional actor
and originating request, note, timestamp. -/
structure StockHistory where
  id : String
  stockId : String
  changeType : String
  quantity : Int
  userId : Option String := none
  requestId : Option String := none
  notes : Option String := none
  createdAt : Nat := 0
deriving DecidableEq, Repr

/-- The persistent store: the four tables of the schema, each as a list of
rows in insertion order. -/
structure DBState where
  users : List User := []
  stocks : List Stock := []
  requests : List StockRequest := []
  history : List StockHistory := []
deriving DecidableEq, Repr

/-! ## Storage layer (`server/storage.ts`, class `DatabaseStorage`) -/

/-- `DatabaseStorage.getStockById`: `select from stocks where id = x`,
first row or undefined. -/
def getStockById (s : DBState) (id : String) : Option Stock :=
  s.stocks.find? (fun st => st.id == id)

/-- `DatabaseStorage.updateStockQuantity`: `update stocks set quantity,
updatedAt where id = x returning`; the handler destructures the first
returned row. -/
def updateStockQuantity (s : DBState) (id : String) (newQuantity : Int)
    (now : Nat) : DBState × Option Stock :=
  let stocks := s.stocks.map (fun st =>
    if st.id == id then { st with quantity := newQuantity, updatedAt := now } else st)
  ({ s with stocks := stocks }, stocks.find? (fun st => st.id == id))

/-- `DatabaseStorage.updateStock`, at the call type used by the
adjust-quantity handler (routes.ts line 395): the partial patch there is
always exactly `\x7b quantity \x7d`, so the row update sets `quantity` and
`updatedAt`. -/
def updateStock (s : DBState) (id : String) (patchQuantity : Int)
    (now : Nat) : DBState × Option Stock :=
  let stocks := s.stocks.map (fun st =>
    if st.id == id then { st with quantity := patchQuantity, updatedAt := now } else st)
  ({ s with stocks := stocks }, stocks.find? (fun st => st.id == id))

/-- `DatabaseStorage.updateRequestStatus`: `update stock_requests set
status, adminNotes, approvedBy, updatedAt where id = x returning`, first
returned row or undefined.  Drizzle drops `undefined` members of `.set()`,
so a `none` parameter leaves the stored field unchanged. -/
def updateRequestStatus (s : DBState) (id status : String)
    (adminNotes approvedBy : Option String) (now : Nat) :
    DBState × Option StockRequest :=
  let reqs := s.requests.map (fun r =>
    if r.id == id then
      { r with
        status := status
        adminNotes := match adminNotes with
          | some n => some n
          | none => r.adminNotes
        approvedBy := match approvedBy with
          | some a => some a
          | none => r.approvedBy
        updatedAt := now }
    else r)
  ({ s with requests := reqs }, reqs.find? (fun r => r.id == id))

/-- Fresh primary key for a `stock_history` insert (the schema default is
`gen_random_uuid()`; modelled deterministically from the table length). -/
def freshHistoryId (s : DBState) : String :=
  String.append "hist-" (toString s.history.length)

/-- Insert payload for `stock_history` (insertStockHistorySchema omits id
and createdAt). -/
structure InsertStockHistory where
  stockId : String
  changeType : String
  quantity : Int
  userId : Option String := none
  requestId : Option String := none
  notes : Option String := none
deriving DecidableEq, Repr

/-- `DatabaseStorage.createStockHistory`: `insert into stock_history values
... returning`. -/
def createStockHistory (s : DBState) (h : InsertStockHistory) (now : Nat) :
    DBState × StockHistory :=
  let row : StockHistory :=
    { id := freshHistoryId s
      stockId := h.stockId
      changeType := h.changeType
      quantity := h.quantity
      userId := h.userId
      requestId := h.requestId
      notes := h.notes
      createdAt := now }
  ({ s with history := s.history ++ [row] }, row)

/-- Fresh primary key for a `stock_requests` insert. -/
def freshRequestId (s : DBState) : String :=
  String.append "req-" (toString s.requests.length)

/-- Insert payload for `stock_requests` as built by the POST /api/requests
handler: `insertStockRequestSchema` omits id, createdAt, updatedAt and
status, so the inserted row takes the schema default `status = "pending"`. -/
structure InsertStockRequest where
  userId : String
  stockId : String
  quantity : Int
  reason : Option String := none
deriving DecidableEq, Repr

/-- `DatabaseStorage.createStockRequest`: `insert into stock_requests
values ... returning`. -/
def createStockRequestRow (s : DBState) (r : InsertStockRequest) (now : Nat) :
    DBState × StockRequest :=
  let row : StockRequest :=
    { id := freshRequestId s
      userId := r.userId
      stockId := r.stockId
      quantity := r.quantity
      reason := r.reason
      status := "pending"
      adminNotes := none
      approvedBy := none
      createdAt := now
      updatedAt := now }
  ({ s with requests := s.requests ++ [row] }, row)

/-- Dashboard aggregate returned by `DatabaseStorage.getDashboardStats`. -/
structure DashboardStats where
  totalStockItems : Nat
  pendingRequests : Nat
  lowStockItems : Nat
  totalUsers : Nat
deriving DecidableEq, Repr

/-- `DatabaseStorage.getDashboardStats`: four `count(*)` queries — all
stocks, requests with `status = 'pending'`, stocks with `quantity <= 5`,
and all users.  The source method only issues `select` statements, so it is
a pure function of the store. -/
def getDashboardStats (s : DBState) : DashboardStats :=
  { totalStockItems := s.stocks.length
    pendingRequests := (s.requests.filter (fun r => r.status == "pending")).length
    lowStockItems := (s.stocks.filter (fun st => decide (st.quantity ≤ 5))).length
    totalUsers := s.users.length }

/-! ## HTTP handlers (`server/routes.ts`) -/

/-- Outcome of a handler, by the HTTP status it answers with:
200 `ok`, 404 `notFound` and 400 `badRequest` with their messages. -/
inductive ApiResult (α : Type) where
  | ok : α → ApiResult α
  | notFound : String → ApiResult α
  | badRequest : String → ApiResult α
deriving DecidableEq, Repr

/-- PUT /api/requests/:id/approve (routes.ts lines 267-324).  Looks the
request up in `getStockRequests()` (a join keyed by the unique id, so a
list lookup), 404s on a missing request or stock, 400s when
`stock.quantity < request.quantity`, and otherwise decrements the stock,
marks the request approved and appends one history row.  Note the handler
never inspects `request.status`.  The response body is the row returned by
`updateRequestStatus`. -/
def approveRequest (s : DBState) (requestId adminId : String)
    (adminNotes : Option String) (now : Nat) :
    ApiResult (Option StockRequest) × DBState :=
  match s.requests.find? (fun r => r.id == requestId) with
  | none => (ApiResult.notFound "Request not found", s)
  | some request =>
    match getStockById s request.stockId with
    | none => (ApiResult.notFound "Stock not found", s)
    | some stock =>
      if stock.quantity < request.quantity then
        (ApiResult.badRequest "Insufficient stock quantity", s)
      else
        let newQuantity := stock.quantity - request.quantity
        let s1 := (updateStockQuantity s request.stockId newQuantity now).1
        let upd := updateRequestStatus s1 requestId "approved" adminNotes (some adminId) now
        let s2 := (createStockHistory upd.1
          { stockId := request.stockId
            changeType := "request_approved"
            quantity := -request.quantity
            userId := some request.userId
            requestId := some requestId
            notes := some (String.append "Request approved by admin: "
              (String.append (toString request.quantity) " units allocated")) } now).1
        (ApiResult.ok upd.2, s2)

/-- PUT /api/requests/:id/deny (routes.ts lines 327-352).  Calls
`updateRequestStatus(id, "denied", adminNotes, adminId)` directly — there
is no existence check, and `res.json` of the possibly-undefined returned
row answers 200 either way. -/
def denyRequest (s : DBState) (requestId adminId : String)
    (adminNotes : Option String) (now : Nat) :
    ApiResult (Option StockRequest) × DBState :=
  let upd := updateRequestStatus s requestId "denied" adminNotes (some adminId) now
  (ApiResult.ok upd.2, upd.1)

/-- Models the JavaScript built-in `String.prototype.trim()`: strips
whitespace from both ends of the string.  (Defined by structural list
recursion so concrete instances evaluate.) -/
def jsTrim (s : String) : String :=
  String.mk (((s.data.dropWhile Char.isWhitespace).reverse.dropWhile Char.isWhitespace).reverse)

/-- PATCH /api/admin/stocks/:id/adjust-quantity (routes.ts lines 355-422).
Validates `changeType ∈ \x7b added, removed \x7d` (the JS
`!changeType || !includes` collapses to non-membership, since the empty
string is not in the list), `quantity > 0` (JS `!quantity || quantity <= 0`
collapses to `quantity ≤ 0` over the integers) and a non-whitespace comment
(`!comment || comment.trim() === ''` collapses to `jsTrim comment = ""`).
Then 404s on a missing stock, 400s when the signed adjustment would drive
the quantity negative, and otherwise persists the new quantity and appends
one history row carrying the raw magnitude.  The response re-reads the
stock. -/
def adjustStockQuantity (s : DBState) (id changeType : String)
    (quantity : Int) (comment : String) (userId : Option String)
    (now : Nat) : ApiResult (String × Option Stock) × DBState :=
  if !(changeType == "added" || changeType == "removed") then
    (ApiResult.badRequest "Invalid adjustment type", s)
  else if quantity ≤ 0 then
    (ApiResult.badRequest "Quantity must be greater than 0", s)
  else if jsTrim comment == "" then
    (ApiResult.badRequest "Comment is required", s)
  else
    match getStockById s id with
    | none => (ApiResult.notFound "Stock not found", s)
    | some stock =>
      let adjustmentAmount := if changeType == "added" then quantity else -quantity
      let newQuantity := stock.quantity + adjustmentAmount
      if newQuantity < 0 then
        (ApiResult.badRequest (String.append "Cannot remove "
          (String.append (toString quantity)
            (String.append " items. Only "
              (String.append (toString stock.quantity) " available in stock.")))), s)
      else
        let s1 := (updateStock s id newQuantity now).1
        let s2 := (createStockHistory s1
          { stockId := id
            changeType := changeType
            quantity := quantity
            userId := userId
            requestId := none
            notes := some comment } now).1
        (ApiResult.ok ("Stock quantity adjusted successfully", getStockById s2 id), s2)

/-- POST /api/requests (routes.ts lines 175-207).  The zod parse of
`insertStockRequestSchema` types the fields but places no lower bound on
`quantity`; the handler then 404s on a missing stock, 400s when
`stock.quantity < quantity`, and inserts a new request (schema default
`status = "pending"`). -/
def createStockRequest (s : DBState) (userId stockId : String)
    (quantity : Int) (reason : Option String) (now : Nat) :
    ApiResult StockRequest × DBState :=
  match getStockById s stockId with
  | none => (ApiResult.notFound "Stock not found", s)
  | some stock =>
    if stock.quantity < quantity then
      (ApiResult.badRequest "Insufficient stock quantity", s)
    else
      let ins := createStockRequestRow s
        { userId := userId, stockId := stockId, quantity := quantity, reason := reason } now
      (ApiResult.ok ins.2, ins.1)

/-! ## Authentication (`DatabaseStorage.signInWithPassword`) -/

/-- Models `bcrypt.compare(password, hash)` of the external bcrypt library:
the stored hash matches exactly the hash of the stored password.  The
repository treats the hash as opaque, so any injective tagging works. -/
def bcryptCompare (password hash : String) : Bool :=
  hash == String.append "bcrypt-hash:" password

/-- Models `jwt.sign(\x7b id, email, is_admin \x7d, secret)` of the external
jsonwebtoken library: an opaque token derived from the payload.  Every
produced token is non-empty (it carries the "jwt:" tag). -/
def jwtSign (id : String) (email : Option String) (isAdmin : Option Bool) : String :=
  String.append "jwt:"
    (String.append id
      (String.append ":"
        (String.append (email.getD "")
          (if isAdmin.getD false then ":admin" else ":user"))))

/-- Shape of the `signInWithPassword` result: the access token (empty
string when no token is issued), the user row with `password_hash`
stripped, and the error, as the message string of the `Error` object. -/
structure SignInResult where
  access_token : String
  user : Option User
  error : Option String
deriving DecidableEq, Repr

/-- The destructuring `const \x7b password_hash, ...userWithoutPassword \x7d`:
the returned user copy without its credential hash. -/
def withoutPassword (u : User) : User :=
  { u with password_hash := "" }

/-- `DatabaseStorage.signInWithPassword` (storage variant with local auth):
select the user by email; "User not found" when absent; bcrypt-compare the
password, "Invalid password" on mismatch; read `isActive ?? false` and
answer "Your account is not active" with an empty token when inactive;
otherwise sign and return a JWT. -/
def signInWithPassword (s : DBState) (email password : String) : SignInResult :=
  match s.users.find? (fun u => u.email == some email) with
  | none => { access_token := "", user := none, error := some "User not found" }
  | some user =>
    if !(bcryptCompare password user.password_hash) then
      { access_token := "", user := none, error := some "Invalid password" }
    else
      let isActive := user.isActive.getD false
      if !isActive then
        { access_token := ""
          user := some (withoutPassword user)
          error := some "Your account is not active" }
      else
        { access_token := jwtSign user.id user.email user.isAdmin
          user := some (withoutPassword user)
          error := none }

/-! ## Sequences of workflow calls (for the quantity invariant) -/

/-- One quantity-mutating workflow call, as named by the spec: an
admin quantity adjustment or a request approval. -/
inductive WorkflowOp where
  | adjust (id changeType : String) (quantity : Int) (comment : String)
      (userId : Option String) : WorkflowOp
  | approve (requestId adminId : String) (adminNotes : Option String) : WorkflowOp
deriving DecidableEq, Repr

/-- State reached after one workflow call (the handler's response is
dropped, only the store matters for the invariant). -/
def applyOp (s : DBState) (op : WorkflowOp) (now : Nat) : DBState :=
  match op with
  | WorkflowOp.adjust id ct q c u => (adjustStockQuantity s id ct q c u now).2
  | WorkflowOp.approve rid aid notes => (approveRequest s rid aid notes now).2

/-- State reached after a sequential run of workflow calls, each with its
own wall-clock instant. -/
def runOps (s : DBState) (ops : List (WorkflowOp × Nat)) : DBState :=
  ops.foldl (fun acc p => applyOp acc p.1 p.2) s

/-- Every stock row of the store has a non-negative quantity. -/
def nonnegStocks (s : DBState) : Prop :=
  ∀ st ∈ s.stocks, 0 ≤ st.quantity

instance (s : DBState) : Decidable (nonnegStocks s) := by
  unfold nonnegStocks; infer_instance

/-! ## Helper lemmas -/

/-- Finding by key commutes with mapping a key-preserving update over the
list (the shape of every `update ... where id = x returning` here). -/
theorem find_map_key {α : Type} (key : α → String) (l : List α) (i : String)
    (f : α → α) (hf : ∀ x, key (f x) = key x) :
    (l.map f).find? (fun x => key x == i)
      = (l.find? (fun x => key x == i)).map f := by
  induction l with
  | nil => rfl
  | cons hd tl ih =>
    by_cases h : key hd == i
    · simp [List.find?_cons, hf, h]
    · have hb : (key hd == i) = false := by
        exact Bool.not_eq_true _ ▸ (by simpa using h)
      simp only [List.map_cons, List.find?_cons, hf, hb]
      exact ih

/-- A key-preserving update keeps every other row's key intact; the first
row found for a key after the update is the update of the first row found
before. -/
theorem find_map_key_some {α : Type} (key : α → String) (l : List α)
    (i : String) (f : α → α) (hf : ∀ x, key (f x) = key x) (a : α)
    (ha : l.find? (fun x => key x == i) = some a) :
    (l.map f).find? (fun x => key x == i) = some (f a) := by
  rw [find_map_key key l i f hf, ha]; rfl

/-- A successful quantity adjustment only rewrites stock rows to the
checked non-negative value, so row-wise non-negativity survives it; every
failing branch leaves the store untouched. -/
theorem adjust_preserves_nonneg (s : DBState) (id ct : String) (q : Int)
    (c : String) (u : Option String) (now : Nat) (h : nonnegStocks s) :
    nonnegStocks (adjustStockQuantity s id ct q c u now).2 := by
  unfold adjustStockQuantity
  split
  · exact h
  split
  · exact h
  split
  · exact h
  split
  · exact h
  rename_i stock hstock
  simp only
  split
  all_goals
    split
    · exact h
    · rename_i hneg
      intro st hst
      simp only [createStockHistory, updateStock, List.mem_map] at hst
      obtain ⟨st0, hst0, rfl⟩ := hst
      by_cases hid : (st0.id == id) = true
      · simp only [hid, if_pos]
        exact le_of_not_lt hneg
      · simp only [hid, Bool.false_eq_true, not_false_iff, ite_false]
        exact h st0 hst0

/-- A successful approval only rewrites stock rows to the checked
difference `stock.quantity - request.quantity ≥ 0`; every failing branch
leaves the store untouched, and the request/history writes do not touch
the stocks table. -/
theorem approve_preserves_nonneg (s : DBState) (rid aid : String)
    (notes : Option String) (now : Nat) (h : nonnegStocks s) :
    nonnegStocks (approveRequest s rid aid notes now).2 := by
  unfold approveRequest
  split
  · exact h
  rename_i request hreq
  split
  · exact h
  rename_i stock hstock
  split
  · exact h
  rename_i hlt
  intro st hst
  simp only [createStockHistory, updateRequestStatus, updateStockQuantity,
    List.mem_map] at hst
  obtain ⟨st0, hst0, rfl⟩ := hst
  by_cases hid : (st0.id == request.stockId) = true
  · simp only [hid, if_pos]
    exact sub_nonneg.mpr (le_of_not_lt hlt)
  · simp only [hid, if_neg, Bool.false_eq_true, not_false_iff, ite_false]
    exact h st0 hst0

/-- One workflow call preserves row-wise non-negativity of quantities. -/
theorem applyOp_preserves_nonneg (s : DBState) (op : WorkflowOp) (now : Nat)
    (h : nonnegStocks s) : nonnegStocks (applyOp s op now) := by
  cases op with
  | adjust id ct q c u => exact adjust_preserves_nonneg s id ct q c u now h
  | approve rid aid notes => exact approve_preserves_nonneg s rid aid notes now h

/-! ## Concrete stores for witnesses and counterexamples -/

/-- A stock row: 10 widgets on hand. -/
def exStock : Stock :=
  { id := "s1", name := "Widget", code := "WM-001", quantity := 10 }

/-- A pending request for 4 units of the widget stock. -/
def exReq : StockRequest :=
  { id := "r1", userId := "u1", stockId := "s1", quantity := 4, status := "pending" }

/-- Store with one plain user, one admin, a stock of quantity 10 and a
pending request for 4 units of it. -/
def exState : DBState :=
  { users := [ { id := "u1", email := some "u1@x.io", password_hash := "bcrypt-hash:pw1",
                 isAdmin := some false, isActive := some true },
               { id := "a1", email := some "a1@x.io", password_hash := "bcrypt-hash:pw2",
                 isAdmin := some true, isActive := some true } ]
    stocks := [exStock]
    requests := [exReq]
    history := [] }

/-- A stock row of 3 units. -/
def exLowStock : Stock :=
  { id := "s2", name := "Gadget", code := "GM-002", quantity := 3 }

/-- A pending request for 5 units against the 3-unit stock. -/
def exLowReq : StockRequest :=
  { id := "r2", userId := "u1", stockId := "s2", quantity := 5, status := "pending" }

/-- Store in which the open request exceeds the available quantity. -/
def exLowState : DBState :=
  { users := [], stocks := [exLowStock], requests := [exLowReq], history := [] }

/-- Store whose single request has already been approved (status
"approved", approver recorded), with the stock still holding 10 units. -/
def exApprovedState : DBState :=
  { users := [ { id := "u1" }, { id := "a2", isAdmin := some true } ]
    stocks := [ { id := "s1", name := "Widget", code := "WM-001", quantity := 10 } ]
    requests := [ { id := "r1", userId := "u1", stockId := "s1", quantity := 4,
                    status := "approved", approvedBy := some "a1" } ]
    history := [] }

/-! ## Claim theorems -/

/-- C2: starting from a store whose stock quantities are all non-negative,
any sequential run of `adjustStockQuantity` and `approveRequest` calls
leaves every stock quantity non-negative: each approval decrements only
after checking `quantity ≥ requested`, and each adjustment rejects any
change whose resulting quantity would be negative. -/
theorem quantity_nonneg_after_workflow (s : DBState)
    (ops : List (WorkflowOp × Nat)) (h : nonnegStocks s) :
    nonnegStocks (runOps s ops) := by
  induction ops generalizing s with
  | nil => exact h
  | cons p ps ih =>
    simp only [runOps, List.foldl_cons] at *
    exact ih _ (applyOp_preserves_nonneg s p.1 p.2 h)

/-- Witness for C2: a concrete three-call run (approve 4, remove 6, add 3)
from the concrete store keeps quantities non-negative. -/
theorem quantity_nonneg_after_workflow_witness :
    nonnegStocks (runOps exState
      [ (WorkflowOp.approve "r1" "a1" none, 1),
        (WorkflowOp.adjust "s1" "removed" 6 "damaged" (some "a1"), 2),
        (WorkflowOp.adjust "s1" "added" 3 "restock" (some "a1"), 3) ]) :=
  quantity_nonneg_after_workflow exState _ (by decide)

/-- C1 fails on the code: the approve handler never inspects the request's
current status, so a call on an already-approved request succeeds again
and decrements the stock a second time (10 → 6 → 2 here), and the deny
handler moves an approved request to "denied".  This evaluates the
handlers at that failing input. -/
theorem approve_has_no_status_guard :
    (approveRequest exApprovedState "r1" "a2" none 5).1
      = ApiResult.ok (some { id := "r1", userId := "u1", stockId := "s1", quantity := 4,
                             status := "approved", approvedBy := some "a2", updatedAt := 5 })
  ∧ getStockById (approveRequest exApprovedState "r1" "a2" none 5).2 "s1"
      = some { id := "s1", name := "Widget", code := "WM-001", quantity := 6, updatedAt := 5 }
  ∧ getStockById
      (approveRequest (approveRequest exApprovedState "r1" "a2" none 5).2 "r1" "a2" none 6).2 "s1"
      = some { id := "s1", name := "Widget", code := "WM-001", quantity := 2, updatedAt := 6 }
  ∧ ((denyRequest (approveRequest exApprovedState "r1" "a2" none 5).2 "r1" "a2" none 7).2.requests.find?
        (fun r => r.id == "r1")).map (fun r => r.status) = some "denied" := by
  decide

/-- C6 fails on the code: the deny handler calls `updateRequestStatus`
without any existence check; on a request id that matches nothing the
update returns no row and the handler answers 200 with an undefined body
(`ok none` here), not 404 — though it indeed creates and modifies
nothing. -/
theorem deny_missing_request_reports_ok :
    (denyRequest exApprovedState "nope" "a2" none 3).1 = ApiResult.ok none
  ∧ (denyRequest exApprovedState "nope" "a2" none 3).2 = exApprovedState := by
  decide

/-- C7: denying a request never touches the stocks, history or users
tables; in the requests table only the denied request's `status`,
`adminNotes`, `approvedBy` and `updatedAt` fields change (a `none`
adminNotes parameter leaves the stored notes as they were, matching
drizzle's treatment of undefined set values). -/
theorem denyRequest_frame (s : DBState) (requestId adminId : String)
    (notes : Option String) (now : Nat) :
    (denyRequest s requestId adminId notes now).2.stocks = s.stocks
  ∧ (denyRequest s requestId adminId notes now).2.history = s.history
  ∧ (denyRequest s requestId adminId notes now).2.users = s.users
  ∧ (denyRequest s requestId adminId notes now).2.requests
      = s.requests.map (fun r =>
          if r.id == requestId then
            { r with
              status := "denied"
              adminNotes := match notes with
                | some n => some n
                | none => r.adminNotes
              approvedBy := some adminId
              updatedAt := now }
          else r) :=
  ⟨rfl, rfl, rfl, rfl⟩

/-- C3: approving an existing pending request whose stock has enough
quantity succeeds: the response carries the request updated to status
"approved" with the notes and the approving admin stored; the stock's
quantity drops by the requested amount; exactly one history row is
appended, tagged `request_approved`, holding minus the requested quantity
and referencing the request and the original requester; and the stored
request is the updated one. -/
theorem approveRequest_success (s : DBState) (request : StockRequest)
    (stock : Stock) (adminId notes : String) (now : Nat)
    (hreq : s.requests.find? (fun r => r.id == request.id) = some request)
    (hpending : request.status = "pending")
    (hstock : getStockById s request.stockId = some stock)
    (havail : request.quantity ≤ stock.quantity) :
    (approveRequest s request.id adminId (some notes) now).1
      = ApiResult.ok (some { request with
          status := "approved"
          adminNotes := some notes
          approvedBy := some adminId
          updatedAt := now })
  ∧ getStockById (approveRequest s request.id adminId (some notes) now).2 request.stockId
      = some { stock with quantity := stock.quantity - request.quantity, updatedAt := now }
  ∧ (approveRequest s request.id adminId (some notes) now).2.history
      = s.history ++ [ { id := freshHistoryId s
                         stockId := request.stockId
                         changeType := "request_approved"
                         quantity := -request.quantity
                         userId := some request.userId
                         requestId := some request.id
                         notes := some (String.append "Request approved by admin: "
                           (String.append (toString request.quantity) " units allocated"))
                         createdAt := now } ]
  ∧ (approveRequest s request.id adminId (some notes) now).2.requests.find?
        (fun r => r.id == request.id)
      = some { request with
          status := "approved"
          adminNotes := some notes
          approvedBy := some adminId
          updatedAt := now } := by
  have hstock0 : s.stocks.find? (fun st => st.id == request.stockId) = some stock := hstock
  have hid : (stock.id == request.stockId) = true := by
    simpa using List.find?_some hstock0
  have hidr : (request.id == request.id) = true := by simp
  simp only [approveRequest, hreq, getStockById, hstock0]
  rw [if_neg (not_lt.mpr havail)]
  simp only [updateStockQuantity, updateRequestStatus, createStockHistory, freshHistoryId]
  refine ⟨?_, ?_, ?_, ?_⟩
  · rw [find_map_key_some (fun r => r.id) s.requests request.id _
        (fun x => by dsimp only; split <;> rfl) request hreq]
    simp [hidr]
  · rw [find_map_key_some (fun st => st.id) s.stocks request.stockId _
        (fun x => by dsimp only; split <;> rfl) stock hstock0]
    simp [hid]
  · trivial
  · rw [find_map_key_some (fun r => r.id) s.requests request.id _
        (fun x => by dsimp only; split <;> rfl) request hreq]
    simp [hidr]

/-- Witness for C3: approving the concrete pending request for 4 of the
10-unit widget stock yields the approved request record in the response. -/
theorem approveRequest_success_witness :
    (approveRequest exState "r1" "a1" (some "ok") 9).1
      = ApiResult.ok (some { id := "r1"
                             userId := "u1"
                             stockId := "s1"
                             quantity := 4
                             status := "approved"
                             adminNotes := some "ok"
                             approvedBy := some "a1"
                             updatedAt := 9 }) :=
  (approveRequest_success exState exReq exStock "a1" "ok" 9
    (by decide) (by decide) (by decide) (by decide)).1

/-- C4: approving a request whose stock holds strictly less than the
requested quantity answers 400 "Insufficient stock quantity" and leaves
the whole store — stock quantity, request status and history — exactly as
it was. -/
theorem approveRequest_insufficient (s : DBState) (request : StockRequest)
    (stock : Stock) (adminId : String) (notes : Option String) (now : Nat)
    (hreq : s.requests.find? (fun r => r.id == request.id) = some request)
    (hstock : getStockById s request.stockId = some stock)
    (hlow : stock.quantity < request.quantity) :
    (approveRequest s request.id adminId notes now).1
      = ApiResult.badRequest "Insufficient stock quantity"
  ∧ (approveRequest s request.id adminId notes now).2 = s := by
  have hstock0 : s.stocks.find? (fun st => st.id == request.stockId) = some stock := hstock
  simp only [approveRequest, hreq, getStockById, hstock0]
  rw [if_pos hlow]
  exact ⟨rfl, rfl⟩

/-- Witness for C4: approving the concrete request for 5 units of the
3-unit stock fails with the insufficiency message and changes nothing. -/
theorem approveRequest_insufficient_witness :
    (approveRequest exLowState "r2" "a1" none 4).1
      = ApiResult.badRequest "Insufficient stock quantity"
  ∧ (approveRequest exLowState "r2" "a1" none 4).2 = exLowState :=
  approveRequest_insufficient exLowState exLowReq exLowStock "a1" none 4
    (by decide) (by decide) (by decide)

/-- C5: the adjust-quantity endpoint (a) answers 400 and changes nothing
whenever the change type is neither "added" nor "removed", the quantity is
non-positive or the comment is whitespace; (b) on valid input against an
existing stock it answers 400 and changes nothing when the signed delta
(`+quantity` for added, `-quantity` for removed) would drive the quantity
negative; and (c) otherwise persists `current + delta`, appends exactly
one history row carrying the raw positive magnitude and the change-type
tag, and returns the updated stock item. -/
theorem adjustStockQuantity_spec (s : DBState) (id changeType : String)
    (quantity : Int) (comment : String) (userId : Option String) (now : Nat) :
    ((changeType ≠ "added" ∧ changeType ≠ "removed") ∨ quantity ≤ 0 ∨ jsTrim comment = "" →
      (∃ m, (adjustStockQuantity s id changeType quantity comment userId now).1
          = ApiResult.badRequest m)
      ∧ (adjustStockQuantity s id changeType quantity comment userId now).2 = s)
  ∧ ∀ stock, getStockById s id = some stock →
      (changeType = "added" ∨ changeType = "removed") → 0 < quantity → jsTrim comment ≠ "" →
      ((stock.quantity + (if changeType == "added" then quantity else -quantity) < 0 →
        (∃ m, (adjustStockQuantity s id changeType quantity comment userId now).1
            = ApiResult.badRequest m)
        ∧ (adjustStockQuantity s id changeType quantity comment userId now).2 = s)
      ∧ (0 ≤ stock.quantity + (if changeType == "added" then quantity else -quantity) →
        (adjustStockQuantity s id changeType quantity comment userId now).1
          = ApiResult.ok ("Stock quantity adjusted successfully",
              some { stock with
                quantity := stock.quantity + (if changeType == "added" then quantity else -quantity)
                updatedAt := now })
        ∧ getStockById (adjustStockQuantity s id changeType quantity comment userId now).2 id
            = some { stock with
                quantity := stock.quantity + (if changeType == "added" then quantity else -quantity)
                updatedAt := now }
        ∧ (adjustStockQuantity s id changeType quantity comment userId now).2.history
            = s.history ++ [ { id := freshHistoryId s
                               stockId := id
                               changeType := changeType
                               quantity := quantity
                               userId := userId
                               requestId := none
                               notes := some comment
                               createdAt := now } ]
        ∧ (adjustStockQuantity s id changeType quantity comment userId now).2.requests
            = s.requests)) := by
  constructor
  · intro h
    unfold adjustStockQuantity
    by_cases hct : (!(changeType == "added" || changeType == "removed")) = true
    · rw [if_pos hct]
      exact ⟨⟨_, rfl⟩, rfl⟩
    · rw [if_neg hct]
      by_cases hq : quantity ≤ 0
      · rw [if_pos hq]
        exact ⟨⟨_, rfl⟩, rfl⟩
      · rw [if_neg hq]
        have hc : (jsTrim comment == "") = true := by
          rcases h with ⟨h1, h2⟩ | h | h
          · exact absurd (by simp [h1, h2]) hct
          · exact absurd h hq
          · simp [h]
        rw [if_pos hc]
        exact ⟨⟨_, rfl⟩, rfl⟩
  · intro stock hstock hct hq hc
    have hstock0 : s.stocks.find? (fun st => st.id == id) = some stock := hstock
    have hid : (stock.id == id) = true := by
      simpa using List.find?_some hstock0
    have hct2 : (!(changeType == "added" || changeType == "removed")) = false := by
      rcases hct with rfl | rfl <;> simp
    have hq2 : ¬quantity ≤ 0 := not_le.mpr hq
    have hc2 : (jsTrim comment == "") = false := by
      simpa using hc
    have hct3 : ¬((!(changeType == "added" || changeType == "removed")) = true) := by
      rw [hct2]; exact Bool.false_ne_true
    have hc3 : ¬((jsTrim comment == "") = true) := by
      rw [hc2]; exact Bool.false_ne_true
    unfold adjustStockQuantity
    rw [if_neg hct3, if_neg hq2, if_neg hc3]
    simp only [getStockById, hstock0]
    constructor
    · intro hneg
      rw [if_pos hneg]
      exact ⟨⟨_, rfl⟩, rfl⟩
    · intro hpos
      rw [if_neg (not_lt.mpr hpos)]
      simp only [updateStock, createStockHistory, freshHistoryId, getStockById]
      refine ⟨?_, ?_, ?_, ?_⟩
      · rw [find_map_key_some (fun st => st.id) s.stocks id _
            (fun x => by dsimp only; split <;> rfl) stock hstock0]
        simp [hid]
      · rw [find_map_key_some (fun st => st.id) s.stocks id _
            (fun x => by dsimp only; split <;> rfl) stock hstock0]
        simp [hid]
      · trivial
      · trivial

/-- Witness for C5: adding 20 units with comment "restock" to the 3-unit
stock answers with the stock updated to quantity 23. -/
theorem adjustStockQuantity_spec_witness :
    (adjustStockQuantity exLowState "s2" "added" 20 "restock" (some "a1") 8).1
      = ApiResult.ok ("Stock quantity adjusted successfully",
          some { id := "s2", name := "Gadget", code := "GM-002", quantity := 23, updatedAt := 8 }) :=
  (((adjustStockQuantity_spec exLowState "s2" "added" 20 "restock" (some "a1") 8).2
      exLowStock (by decide) (Or.inl rfl) (by decide) (by decide)).2 (by decide)).1

/-- C8 as stated is false on the code: nothing validates `quantity > 0`.
The zod insert schema only types the field, and the handler's only numeric
check is `stock.quantity < quantity`, which a zero (or negative) request
quantity passes; here a request for 0 units of the 10-unit stock is
accepted and stored as pending. -/
theorem createStockRequest_accepts_nonpositive :
    (createStockRequest exState "u1" "s1" 0 none 4).1
      = ApiResult.ok { id := "req-1"
                       userId := "u1"
                       stockId := "s1"
                       quantity := 0
                       reason := none
                       status := "pending"
                       createdAt := 4
                       updatedAt := 4 } := by
  decide

/-- C8 amended: request creation requires only that the stock exists
(else 404) and currently holds at least the requested quantity (else 400);
`quantity > 0` is not enforced.  On success a new request with the schema
default status "pending" is appended, and no stock quantity (nor history
or user) is mutated. -/
theorem createStockRequest_spec (s : DBState) (userId stockId : String)
    (quantity : Int) (reason : Option String) (now : Nat) :
    (getStockById s stockId = none →
      (createStockRequest s userId stockId quantity reason now).1
          = ApiResult.notFound "Stock not found"
      ∧ (createStockRequest s userId stockId quantity reason now).2 = s)
  ∧ (∀ stock, getStockById s stockId = some stock → stock.quantity < quantity →
      (createStockRequest s userId stockId quantity reason now).1
          = ApiResult.badRequest "Insufficient stock quantity"
      ∧ (createStockRequest s userId stockId quantity reason now).2 = s)
  ∧ (∀ stock, getStockById s stockId = some stock → quantity ≤ stock.quantity →
      (createStockRequest s userId stockId quantity reason now).1
          = ApiResult.ok { id := freshRequestId s
                           userId := userId
                           stockId := stockId
                           quantity := quantity
                           reason := reason
                           status := "pending"
                           adminNotes := none
                           approvedBy := none
                           createdAt := now
                           updatedAt := now }
      ∧ (createStockRequest s userId stockId quantity reason now).2.stocks = s.stocks
      ∧ (createStockRequest s userId stockId quantity reason now).2.history = s.history
      ∧ (createStockRequest s userId stockId quantity reason now).2.users = s.users
      ∧ (createStockRequest s userId stockId quantity reason now).2.requests
          = s.requests ++ [ { id := freshRequestId s
                              userId := userId
                              stockId := stockId
                              quantity := quantity
                              reason := reason
                              status := "pending"
                              adminNotes := none
                              approvedBy := none
                              createdAt := now
                              updatedAt := now } ]) := by
  refine ⟨?_, ?_, ?_⟩
  · intro hnone
    simp only [createStockRequest, hnone]
    exact ⟨trivial, trivial⟩
  · intro stock hstock hlow
    simp only [createStockRequest, hstock]
    rw [if_pos hlow]
    exact ⟨rfl, rfl⟩
  · intro stock hstock hle
    simp only [createStockRequest, hstock]
    rw [if_neg (not_lt.mpr hle)]
    exact ⟨rfl, rfl, rfl, rfl, rfl⟩

/-- Witness for the amended C8: a request for 2 of the 10 available units
is created as pending without touching the stocks table. -/
theorem createStockRequest_spec_witness :
    (createStockRequest exState "u1" "s1" 2 none 6).1
      = ApiResult.ok { id := "req-1"
                       userId := "u1"
                       stockId := "s1"
                       quantity := 2
                       reason := none
                       status := "pending"
                       createdAt := 6
                       updatedAt := 6 }
  ∧ (createStockRequest exState "u1" "s1" 2 none 6).2.stocks = exState.stocks :=
  have h := (createStockRequest_spec exState "u1" "s1" 2 none 6).2.2 exStock
    (by decide) (by decide)
  ⟨h.1, h.2.1⟩

/-- C9: the dashboard aggregate is exactly the four counts of the spec —
all stock rows, requests whose status is "pending", stock rows with
quantity at most 5, and all user rows — computed from the current store
(the source method only issues `select count` queries, so in the embedding
it is a pure function and mutates nothing). -/
theorem getDashboardStats_spec (s : DBState) :
    (getDashboardStats s).totalStockItems = s.stocks.length
  ∧ (getDashboardStats s).pendingRequests
      = (s.requests.filter (fun r => r.status = "pending")).length
  ∧ (getDashboardStats s).lowStockItems
      = (s.stocks.filter (fun st => st.quantity ≤ 5)).length
  ∧ (getDashboardStats s).totalUsers = s.users.length := by
  refine ⟨rfl, ?_, rfl, rfl⟩
  simp only [getDashboardStats]
  rw [List.filter_congr]
  intro r _
  by_cases h : r.status = "pending" <;> simp [h]

/-- C10: a sign-in issues a (non-empty) access token only for an existing
email whose password matches the stored hash and whose `isActive` flag
reads true; and when the user exists and the password matches but the
account is not active (flag false or unset), the result is an empty
access token with the error message "Your account is not active". -/
theorem signIn_active_guard (s : DBState) (email password : String) :
    ((signInWithPassword s email password).access_token ≠ "" →
      ∃ u, s.users.find? (fun x => x.email == some email) = some u
        ∧ bcryptCompare password u.password_hash = true
        ∧ u.isActive.getD false = true
        ∧ (signInWithPassword s email password).error = none)
  ∧ ∀ u, s.users.find? (fun x => x.email == some email) = some u →
      bcryptCompare password u.password_hash = true →
      u.isActive.getD false = false →
      (signInWithPassword s email password).access_token = ""
      ∧ (signInWithPassword s email password).error
          = some "Your account is not active" := by
  constructor
  · intro htok
    cases hfind : s.users.find? (fun x => x.email == some email) with
    | none =>
      exfalso
      apply htok
      simp [signInWithPassword, hfind]
    | some u =>
      by_cases hbc : bcryptCompare password u.password_hash = true
      · by_cases hact : u.isActive.getD false = true
        · refine ⟨u, rfl, hbc, hact, ?_⟩
          simp [signInWithPassword, hfind, hbc, hact]
        · exfalso
          apply htok
          have hact2 : u.isActive.getD false = false := by
            cases h : u.isActive.getD false
            · rfl
            · exact absurd h hact
          simp [signInWithPassword, hfind, hbc, hact2]
      · exfalso
        apply htok
        have hbc2 : bcryptCompare password u.password_hash = false := by
          cases h : bcryptCompare password u.password_hash
          · rfl
          · exact absurd h hbc
        simp [signInWithPassword, hfind, hbc2]
  · intro u hfind hbc hact
    refine ⟨?_, ?_⟩ <;> simp [signInWithPassword, hfind, hbc, hact]

/-- A deactivated user row with a matching stored credential hash. -/
def exInactiveUser : User :=
  { id := "u9", email := some "u9@x.io", password_hash := "bcrypt-hash:pw9",
    isAdmin := some false, isActive := some false }

/-- Store holding only the deactivated user. -/
def exAuthState : DBState :=
  { users := [exInactiveUser], stocks := [], requests := [], history := [] }

/-- Witness for C10: the deactivated user's correct credentials yield an
empty token and the inactive-account error. -/
theorem signIn_active_guard_witness :
    (signInWithPassword exAuthState "u9@x.io" "pw9").access_token = ""
  ∧ (signInWithPassword exAuthState "u9@x.io" "pw9").error
      = some "Your account is not active" :=
  (signIn_active_guard exAuthState "u9@x.io" "pw9").2 exInactiveUser
    (by decide) (by decide) (by decide)

end StockFlow
